import Mathlib

/-!
Shallow embedding of the LanceDB C-ABI bridge (`rust-cgo/src/`).

Pointers across the ABI are modelled as `Option` values (`none` = null
pointer).  The thread-local last-error slot of one calling thread is
modelled as an explicit `Option String` state threaded through each
entry-point function.  Engine operations (which live outside this
repository and are consumed as opaque async APIs) are modelled as oracle
parameters of type `Except`.  Machine integers that carry return codes or
lengths are modelled as `Int` (no arithmetic overflows in the modelled
paths).  Error `Location` payloads (file/line noise from `snafu`) are
omitted from rendered messages; only the `Display` prefix and message are
kept.
-/

namespace LanceBridge

/-- Error taxonomy of `error.rs` restricted to the variants reachable from
the modelled entry points.  `render` mirrors the `snafu(display ...)`
strings without the trailing `Location`. -/
inductive CError where
  | invalidArgument (message : String)
  | arrow (message : String)
  | ioErr (message : String)
  | otherLanceDB (message : String)
  deriving DecidableEq, Repr

def CError.render : CError → String
  | .invalidArgument m => "Invalid argument: " ++ m
  | .arrow m => "Arrow error: " ++ m
  | .ioErr m => "IO error: " ++ m
  | .otherLanceDB m => "Other LanceDB error: " ++ m

/-! Thread-local last-error slot (`lib.rs`).  The slot of the calling
thread is an `Option String`; `none` models an empty slot (so
`lancedb_get_last_error` returns a null pointer). -/

/-- `lancedb_set_last_error` (lib.rs:95-107): a null argument clears the
calling thread's slot; a non-null argument stores a copy of the string. -/
def lancedb_set_last_error (error : Option String) (_slot : Option String) :
    Option String :=
  match error with
  | none => none
  | some s => some s

/-- `lancedb_get_last_error` (lib.rs:70-78): returns the stored message, or
null when the slot is empty. -/
def lancedb_get_last_error (slot : Option String) : Option String :=
  slot

/-! Arrow data model.  The bridge moves flat record batches (a schema of
top-level fields plus one column of cell values per field) across the ABI
through the Arrow C Data Interface.  The interchange structures
(`FFI_ArrowArray`, `FFI_ArrowSchema`) are modelled as carriers that either
hold live exported contents or are released/zeroed (release callback
null); the byte layout of the published standard is out of scope. -/

inductive ArrowType where
  | int32
  | int64
  | float32
  | utf8
  deriving DecidableEq, Repr

structure ArrowField where
  name : String
  dtype : ArrowType
  nullable : Bool
  deriving DecidableEq, Repr

structure ArrowSchemaM where
  fields : List ArrowField
  deriving DecidableEq, Repr

/-- A cell value.  Float32 cells are carried as opaque bit patterns: the
bridge never computes on cell contents. -/
inductive CellValue where
  | nullv
  | intv (i : Int)
  | strv (s : String)
  | f32bits (b : Int)
  deriving DecidableEq, Repr

structure RecordBatchM where
  schema : ArrowSchemaM
  columns : List (List CellValue)
  deriving DecidableEq, Repr

def RecordBatchM.numRows (b : RecordBatchM) : Nat :=
  match b.columns with
  | [] => 0
  | c :: _ => c.length

def RecordBatchM.numColumns (b : RecordBatchM) : Nat :=
  b.columns.length

/-- Well-formedness of a batch as the engine accepts it: one column per
schema field, all columns of equal length. -/
def RecordBatchM.wellFormed (b : RecordBatchM) : Prop :=
  b.columns.length = b.schema.fields.length ∧
    ∀ c ∈ b.columns, c.length = b.numRows

instance (b : RecordBatchM) : Decidable b.wellFormed := by
  unfold RecordBatchM.wellFormed; infer_instance

/-- The intermediate `arrow_array::StructArray` used by the export/import
paths: field list plus child columns. -/
structure StructArrayM where
  fields : List ArrowField
  columns : List (List CellValue)
  deriving DecidableEq, Repr

/-- Model of `arrow::ffi::FFI_ArrowSchema`: either released/zeroed (release
callback null) or live, carrying the encoded field list. -/
inductive FFI_ArrowSchema where
  | released
  | live (schema : ArrowSchemaM)
  deriving DecidableEq, Repr

/-- Model of `arrow::ffi::FFI_ArrowArray`: either released/zeroed or live,
carrying the child columns and the row count. -/
inductive FFI_ArrowArray where
  | released
  | live (columns : List (List CellValue)) (len : Nat)
  deriving DecidableEq, Repr

/-- Decoding of a live `FFI_ArrowSchema` (`Schema::try_from` in arrow):
fails on a released structure, succeeds on a live one.  Decoding a live
structure the bridge itself exported always succeeds per the published
standard. -/
def schemaTryFromFFI : FFI_ArrowSchema → Except CError ArrowSchemaM
  | .released => .error (.arrow "Failed to convert schema: released schema")
  | .live s => .ok s

/-- Model of `arrow::ffi::from_ffi`: combines a consumed array structure
with the schema structure into array data.  Fails on a released array or
on a child/field mismatch. -/
def from_ffi (a : FFI_ArrowArray) (s : FFI_ArrowSchema) :
    Except CError StructArrayM :=
  match a, s with
  | .live cols len, .live sch =>
      if cols.length = sch.fields.length ∧ ∀ c ∈ cols, c.length = len then
        .ok ⟨sch.fields, cols⟩
      else
        .error (.arrow "Failed to convert array data: shape mismatch")
  | _, _ => .error (.arrow "Failed to convert array data: released array")

/-- `RecordBatch::from(&StructArray)`: rebuilds the batch, deriving the
schema from the struct fields. -/
def recordBatchFromStruct (sa : StructArrayM) : RecordBatchM :=
  ⟨⟨sa.fields⟩, sa.columns⟩

/-- `StructArray::from(batch.clone())`. -/
def structArrayFromBatch (b : RecordBatchM) : StructArrayM :=
  ⟨b.schema.fields, b.columns⟩

/-- `import_record_batch_from_c` (arrow_ffi.rs:25-61).  Arguments are the
two foreign slots (`none` = null pointer).  Returns the result together
with the new contents of the two slots.  The array slot is read and
overwritten with zeroed memory (modelled as `.released`) after the schema
converts; the schema slot is only read by reference. -/
def import_record_batch_from_c (array : Option FFI_ArrowArray)
    (schema : Option FFI_ArrowSchema) :
    Except CError RecordBatchM × Option FFI_ArrowArray × Option FFI_ArrowSchema :=
  match array, schema with
  | some a, some s =>
      match schemaTryFromFFI s with
      | .error e => (.error e, some a, some s)
      | .ok _ =>
          match from_ffi a s with
          | .error e => (.error e, some .released, some s)
          | .ok sa => (.ok (recordBatchFromStruct sa), some .released, some s)
  | _, _ =>
      (.error (.invalidArgument "array and schema pointers cannot be null"),
        array, schema)

/-- `export_record_batch_to_c` (arrow_ffi.rs:70-101).  `tryFromSchema` is
the oracle for `FFI_ArrowSchema::try_from(struct_array.data_type())`, the
arrow-library conversion that may reject unsupported types; on its failure
nothing is written.  On success the schema then the array structure are
written into the caller slots. -/
def export_record_batch_to_c (tryFromSchema : ArrowSchemaM → Except String Unit)
    (batch : RecordBatchM) (array_out : Option FFI_ArrowArray)
    (schema_out : Option FFI_ArrowSchema) :
    Except CError Unit × Option FFI_ArrowArray × Option FFI_ArrowSchema :=
  match array_out, schema_out with
  | some a0, some s0 =>
      match tryFromSchema ⟨(structArrayFromBatch batch).fields⟩ with
      | .error m =>
          (.error (.arrow ("Failed to export schema: " ++ m)), some a0, some s0)
      | .ok _ =>
          (.ok (),
            some (.live (structArrayFromBatch batch).columns batch.numRows),
            some (.live ⟨(structArrayFromBatch batch).fields⟩))
  | _, _ =>
      (.error (.invalidArgument "array_out and schema_out pointers cannot be null"),
        array_out, schema_out)

/-- `export_schema_to_c` (arrow_ffi.rs:110-125). -/
def export_schema_to_c (tryFromSchema : ArrowSchemaM → Except String Unit)
    (schema : ArrowSchemaM) (schema_out : Option FFI_ArrowSchema) :
    Except CError Unit × Option FFI_ArrowSchema :=
  match schema_out with
  | some s0 =>
      match tryFromSchema schema with
      | .error m =>
          (.error (.arrow ("Failed to export schema: " ++ m)), some s0)
      | .ok _ => (.ok (), some (.live schema))
  | none =>
      (.error (.invalidArgument "schema_out pointer cannot be null"), none)

/-- `import_schema_from_c` (arrow_ffi.rs:134-148). -/
def import_schema_from_c (schema : Option FFI_ArrowSchema) :
    Except CError ArrowSchemaM :=
  match schema with
  | none => .error (.invalidArgument "schema pointer cannot be null")
  | some s =>
      match schemaTryFromFFI s with
      | .error e => .error e
      | .ok sch => .ok sch

/-! Query builder (`query.rs`).  The engine's value-typed query builders
are modelled as records of the accumulated settings; `f32` vector
components are an arbitrary type `α` because the bridge only stores them,
never computes on them. -/

inductive DistanceType where
  | l2
  | cosine
  | dot
  deriving DecidableEq, Repr

/-- The engine's plain `Query` builder: the settings the bridge can
accumulate on it. -/
structure LanceQuery where
  limitv : Option Nat
  offsetv : Option Nat
  filterv : Option String
  selectv : Option (List String)
  deriving DecidableEq, Repr

/-- The engine's `VectorQuery` builder: base settings plus the
nearest-neighbor vector and the optional distance metric. -/
structure VectorQuery (α : Type) where
  base : LanceQuery
  queryVector : List α
  metric : Option DistanceType
  deriving DecidableEq, Repr

/-- `QueryHandle` (query.rs:21-24): tagged two-state variant. -/
inductive QueryHandle (α : Type) where
  | plain (q : LanceQuery)
  | vector (q : VectorQuery α)
  deriving DecidableEq, Repr

/-- `QueryHandle::nearest_to` (query.rs:31-43).  Mirrors the `&mut self`
receiver: returns the result together with the handle state afterwards.
In the plain state it transitions to the vector state; in the vector state
it fails with an invalid-argument error, leaving the state untouched. -/
def QueryHandle.nearest_to {α : Type} :
    QueryHandle α → List α → Except CError Unit × QueryHandle α
  | .plain q, v => (.ok (), .vector ⟨q, v, none⟩)
  | .vector vq, _ =>
      (.error (.invalidArgument "nearest_to can only be called once on a query"),
        .vector vq)

/-- `QueryHandle::distance_type` (query.rs:45-56).  Replaces the metric on
a vector query; fails with an invalid-argument error on a plain query. -/
def QueryHandle.distance_type {α : Type} :
    QueryHandle α → DistanceType → Except CError Unit × QueryHandle α
  | .vector vq, dt => (.ok (), .vector { vq with metric := some dt })
  | .plain q, _ =>
      (.error (.invalidArgument "distance_type can only be set on vector queries"),
        .plain q)

/-- `QueryHandle::execute` (query.rs:113-124), with the engine's blocking
stream execution abstracted into the two oracles. -/
def QueryHandle.execute {α : Type}
    (runPlain : LanceQuery → Except String (List RecordBatchM))
    (runVector : VectorQuery α → Except String (List RecordBatchM)) :
    QueryHandle α → Except String (List RecordBatchM)
  | .plain q => runPlain q
  | .vector q => runVector q

/-- Decoding of the distance-metric enum used by
`lancedb_query_distance_type` (query.rs:217-227) and
`lancedb_table_create_index` (table.rs:494-504): 0=L2, 1=Cosine, 2=Dot,
everything else invalid. -/
def decodeDistanceType (m : Int) : Option DistanceType :=
  if m = 0 then some .l2
  else if m = 1 then some .cosine
  else if m = 2 then some .dot
  else none

/-- Outcome of a query-builder entry point: ABI return code, handle state
afterwards, and the thread's error slot afterwards. -/
structure QuerySetOutcome (α : Type) where
  ret : Int
  handle : Option (QueryHandle α)
  errSlot : Option String
  deriving DecidableEq, Repr

/-- `lancedb_query_nearest_to` (query.rs:171-198).  `vector` is the
pointed-to buffer (`none` = null); the slice read takes `vector_len`
leading components. -/
def lancedb_query_nearest_to {α : Type} (handle : Option (QueryHandle α))
    (vector : Option (List α)) (vector_len : Int) (slot : Option String) :
    QuerySetOutcome α :=
  match handle, vector with
  | some h, some v =>
      if vector_len ≤ 0 then
        ⟨-1, some h,
          lancedb_set_last_error
            (some "handle, vector cannot be null and vector_len must be positive")
            slot⟩
      else
        match h.nearest_to (v.take vector_len.toNat) with
        | (.ok _, h2) => ⟨0, some h2, slot⟩
        | (.error e, h2) =>
            ⟨-1, some h2, lancedb_set_last_error (some e.render) slot⟩
  | _, _ =>
      ⟨-1, handle,
        lancedb_set_last_error
          (some "handle, vector cannot be null and vector_len must be positive")
          slot⟩

/-- `lancedb_query_distance_type` (query.rs:204-238). -/
def lancedb_query_distance_type {α : Type} (handle : Option (QueryHandle α))
    (distance_type : Int) (slot : Option String) : QuerySetOutcome α :=
  match handle with
  | none =>
      ⟨-1, none, lancedb_set_last_error (some "handle cannot be null") slot⟩
  | some h =>
      match decodeDistanceType distance_type with
      | none =>
          ⟨-1, some h,
            lancedb_set_last_error
              (some "invalid distance type: must be 0 (L2), 1 (Cosine), or 2 (Dot)")
              slot⟩
      | some dt =>
          match h.distance_type dt with
          | (.ok _, h2) => ⟨0, some h2, slot⟩
          | (.error e, h2) =>
              ⟨-1, some h2, lancedb_set_last_error (some e.render) slot⟩

/-! Table surface (`table.rs`). -/

/-- `lancedb::table::AddDataMode` as used by `lancedb_table_add`. -/
inductive AddDataMode where
  | append
  | overwrite
  deriving DecidableEq, Repr

/-- Index specification built by `TableHandle::create_index`
(table.rs:93-111): either an IVF-PQ build with metric and optional
partition/sub-vector counts, or the engine's automatic choice. -/
inductive EngineIndex where
  | ivfPq (metric : DistanceType) (numPartitions : Option Nat)
      (numSubVectors : Option Nat)
  | auto
  deriving DecidableEq, Repr

/-- ASCII fragment of Rust's `str::to_uppercase`, the comparison used by
`TableHandle::create_index` on the `index_type` argument. -/
def rustToUppercase (s : String) : String :=
  String.mk (s.data.map Char.toUpper)

/-- `TableHandle::create_index` (table.rs:83-121).  `engineBuild` is the
oracle for the engine's index build (`Table::create_index ... execute`).
Returns the result together with a flag recording whether the engine
build was invoked: an unsupported `index_type` is rejected before any
engine call. -/
def TableHandle.create_index
    (engineBuild : String → EngineIndex → Bool → Except CError Unit)
    (column : String) (index_type : String) (metric : DistanceType)
    (num_partitions num_sub_vectors : Option Nat) (replace : Bool) :
    Except CError Unit × Bool :=
  if rustToUppercase index_type = "IVF_PQ" then
    (engineBuild column (.ivfPq metric num_partitions num_sub_vectors) replace,
      true)
  else if rustToUppercase index_type = "AUTO" then
    (engineBuild column .auto replace, true)
  else
    (.error (.invalidArgument ("Unsupported index type: " ++ index_type)), false)

/-- Outcome of `lancedb_table_create_index`: return code, error slot, and
whether the engine's index build ran. -/
structure CreateIndexOutcome where
  ret : Int
  errSlot : Option String
  engineInvoked : Bool
  deriving DecidableEq, Repr

/-- `lancedb_table_create_index` (table.rs:457-534).  `handleNull` models
the null check on the table handle; `column` and `index_type` are the
C-string arguments (`none` = null pointer, carried as decoded UTF-8
text). -/
def lancedb_table_create_index
    (engineBuild : String → EngineIndex → Bool → Except CError Unit)
    (handleNull : Bool) (column index_type : Option String)
    (metric num_partitions num_sub_vectors : Int) (replace : Bool)
    (slot : Option String) : CreateIndexOutcome :=
  match handleNull, column, index_type with
  | false, some col, some ity =>
      match decodeDistanceType metric with
      | none =>
          ⟨-1,
            lancedb_set_last_error
              (some "Invalid distance metric. Use 0=L2, 1=Cosine, 2=Dot") slot,
            false⟩
      | some dt =>
          let parts :=
            if 0 < num_partitions then some num_partitions.toNat else none
          let subv :=
            if 0 < num_sub_vectors then some num_sub_vectors.toNat else none
          match TableHandle.create_index engineBuild col ity dt parts subv
              replace with
          | (.ok _, inv) => ⟨0, slot, inv⟩
          | (.error e, inv) =>
              ⟨-1, lancedb_set_last_error (some e.render) slot, inv⟩
  | _, _, _ =>
      ⟨-1,
        lancedb_set_last_error
          (some "table handle, column, and index_type cannot be null") slot,
        false⟩

/-- Outcome of `lancedb_table_add`: return code, the two foreign slots
afterwards, and the error slot afterwards. -/
structure TableAddOutcome where
  ret : Int
  arraySlot : Option FFI_ArrowArray
  schemaSlot : Option FFI_ArrowSchema
  errSlot : Option String
  deriving DecidableEq, Repr

/-- `lancedb_table_add` (table.rs:223-271).  The batch is imported from
the foreign slots first; only then is `mode` validated (0 = Append,
1 = Overwrite); finally the engine write (`addData` oracle) runs. -/
def lancedb_table_add (addData : RecordBatchM → AddDataMode → Except CError Unit)
    (handleNull : Bool) (array : Option FFI_ArrowArray)
    (schema : Option FFI_ArrowSchema) (mode : Int) (slot : Option String) :
    TableAddOutcome :=
  match handleNull, array, schema with
  | false, some _, some _ =>
      match import_record_batch_from_c array schema with
      | (.error e, a2, s2) =>
          ⟨-1, a2, s2, lancedb_set_last_error (some e.render) slot⟩
      | (.ok batch, a2, s2) =>
          match (if mode = 0 then some AddDataMode.append
                 else if mode = 1 then some AddDataMode.overwrite
                 else none) with
          | none =>
              ⟨-1, a2, s2,
                lancedb_set_last_error
                  (some "invalid mode: must be 0 (Append) or 1 (Overwrite)")
                  slot⟩
          | some m =>
              match addData batch m with
              | .ok _ => ⟨0, a2, s2, slot⟩
              | .error e =>
                  ⟨-1, a2, s2, lancedb_set_last_error (some e.render) slot⟩
  | _, _, _ =>
      ⟨-1, array, schema,
        lancedb_set_last_error
          (some "table handle, array, and schema cannot be null") slot⟩

/-! Connection surface (`connection.rs`). -/

/-- Outcome of `lancedb_connection_table_names`: return code, the written
name array (without the null terminator; `none` = output untouched), the
written count, and the error slot afterwards. -/
structure TableNamesOutcome where
  ret : Int
  namesOut : Option (List String)
  countOut : Option Int
  errSlot : Option String
  deriving DecidableEq, Repr

/-- `lancedb_connection_table_names` (connection.rs:75-151).
`engineTableNames` is the oracle for the engine listing (taking the
optional `start_after` cursor and the optional limit); `allocOk` models
the `libc::malloc` for the outer pointer array.  Faithful to the source,
the allocation-failure branch returns `-1` without writing the error
slot.  Table names are assumed free of interior NUL bytes (the
`CString::new` per-name conversion succeeds). -/
def lancedb_connection_table_names
    (engineTableNames : Option String → Option Int → Except String (List String))
    (handleNull : Bool) (start_after : Option String) (limit : Int)
    (allocOk : Bool) (slot : Option String) : TableNamesOutcome :=
  if handleNull then
    ⟨-1, none, none,
      lancedb_set_last_error (some "connection handle cannot be null") slot⟩
  else
    let limit_opt := if limit ≤ 0 then none else some limit
    match engineTableNames start_after limit_opt with
    | .error m => ⟨-1, none, none, lancedb_set_last_error (some m) slot⟩
    | .ok names =>
        if allocOk then
          ⟨0, some names, some (names.length : Int), slot⟩
        else
          ⟨-1, none, none, slot⟩

/-! Batch-list export: the shared loop of `lancedb_query_execute`
(query.rs:377-466) and `lancedb_table_to_arrow` (table.rs:350-443). -/

/-- The interchange pair written for one batch by a successful
`export_record_batch_to_c` into the loop's interior slots. -/
def exportedPair (b : RecordBatchM) : FFI_ArrowArray × FFI_ArrowSchema :=
  (.live b.columns b.numRows, .live b.schema)

/-- The export loop over the malloc'd regions.  On the first conversion
failure it reports the rendered message together with the number of pairs
already written before the failing index. -/
def exportAllLoop (tryFromSchema : ArrowSchemaM → Except String Unit) :
    List RecordBatchM →
      Except (String × Nat) (List (FFI_ArrowArray × FFI_ArrowSchema))
  | [] => .ok []
  | b :: rest =>
      match tryFromSchema b.schema with
      | .error m => .error (m, 0)
      | .ok _ =>
          match exportAllLoop tryFromSchema rest with
          | .error (m, k) => .error (m, k + 1)
          | .ok pairs => .ok (exportedPair b :: pairs)

/-- Model of a caller-visible output pointer slot for the batch-list
calls: untouched, written with null, or written with the base pointer of
a contiguous region holding the listed structures. -/
inductive OutPtr (β : Type) where
  | untouched
  | nullWritten
  | region (xs : List β)
  deriving DecidableEq, Repr

/-- Observable outcome of a batch-list export call: return code, the
three output slots, how many already-written pairs were released during
cleanup, whether the raw malloc'd backing regions were freed, and the
error slot afterwards. -/
structure BatchListOutcome where
  ret : Int
  arraysOut : OutPtr FFI_ArrowArray
  schemasOut : OutPtr FFI_ArrowSchema
  countOut : Option Int
  releasedPairs : Nat
  buffersFreed : Bool
  errSlot : Option String
  deriving DecidableEq, Repr

/-- The nonempty-batch-list tail shared verbatim by `lancedb_query_execute`
and `lancedb_table_to_arrow`: run the export loop; on failure at index
`k`, the `k` already-written pairs are released via their callbacks, both
raw regions are freed, the error is recorded, and `-1` is returned with
the caller's output slots untouched. -/
def exportBatchList (tryFromSchema : ArrowSchemaM → Except String Unit)
    (batches : List RecordBatchM) (slot : Option String) : BatchListOutcome :=
  match exportAllLoop tryFromSchema batches with
  | .ok pairs =>
      ⟨0, .region (pairs.map Prod.fst), .region (pairs.map Prod.snd),
        some (batches.length : Int), 0, false, slot⟩
  | .error (m, k) =>
      ⟨-1, .untouched, .untouched, none, k, true,
        lancedb_set_last_error
          (some (CError.render (.arrow ("Failed to export schema: " ++ m))))
          slot⟩

/-- `lancedb_query_execute` (query.rs:377-466).  `allocArraysOk` and
`allocSchemasOk` model the two `libc::malloc` calls; when either fails
the partially allocated buffer is freed again before returning. -/
def lancedb_query_execute {α : Type}
    (tryFromSchema : ArrowSchemaM → Except String Unit)
    (runPlain : LanceQuery → Except String (List RecordBatchM))
    (runVector : VectorQuery α → Except String (List RecordBatchM))
    (handle : Option (QueryHandle α))
    (arraysOutNull schemasOutNull countOutNull : Bool)
    (allocArraysOk allocSchemasOk : Bool)
    (slot : Option String) : BatchListOutcome :=
  match handle, arraysOutNull, schemasOutNull, countOutNull with
  | some h, false, false, false =>
      match h.execute runPlain runVector with
      | .error m =>
          ⟨-1, .untouched, .untouched, none, 0, false,
            lancedb_set_last_error (some m) slot⟩
      | .ok batches =>
          if batches.length = 0 then
            ⟨0, .nullWritten, .nullWritten, some 0, 0, false, slot⟩
          else if allocArraysOk && allocSchemasOk then
            exportBatchList tryFromSchema batches slot
          else
            ⟨-1, .untouched, .untouched, none, 0, true,
              lancedb_set_last_error
                (some "failed to allocate memory for output arrays") slot⟩
  | _, _, _, _ =>
      ⟨-1, .untouched, .untouched, none, 0, false,
        lancedb_set_last_error
          (some "handle, arrays_out, schemas_out, and count_out cannot be null")
          slot⟩

/-- `lancedb_table_to_arrow` (table.rs:350-443).  `tableRead` is the
oracle for `TableHandle::to_arrow` (a full-scan engine query with the
optional limit applied). -/
def lancedb_table_to_arrow
    (tryFromSchema : ArrowSchemaM → Except String Unit)
    (tableRead : Option Int → Except String (List RecordBatchM))
    (handleNull : Bool) (limit : Int)
    (arraysOutNull schemasOutNull countOutNull : Bool)
    (allocArraysOk allocSchemasOk : Bool)
    (slot : Option String) : BatchListOutcome :=
  match handleNull, arraysOutNull, schemasOutNull, countOutNull with
  | false, false, false, false =>
      let limit_opt := if limit < 0 then none else some limit
      match tableRead limit_opt with
      | .error m =>
          ⟨-1, .untouched, .untouched, none, 0, false,
            lancedb_set_last_error (some m) slot⟩
      | .ok batches =>
          if batches.length = 0 then
            ⟨0, .nullWritten, .nullWritten, some 0, 0, false, slot⟩
          else if allocArraysOk && allocSchemasOk then
            exportBatchList tryFromSchema batches slot
          else
            ⟨-1, .untouched, .untouched, none, 0, true,
              lancedb_set_last_error
                (some "failed to allocate memory for output arrays") slot⟩
  | _, _, _, _ =>
      ⟨-1, .untouched, .untouched, none, 0, false,
        lancedb_set_last_error
          (some "handle, arrays_out, schemas_out, and count_out cannot be null")
          slot⟩

/-! Helper lemmas. -/

/-- Shape of a successful import: the array slot comes back zeroed and the
schema slot comes back unchanged. -/
theorem import_ok_shape (a : FFI_ArrowArray) (s : FFI_ArrowSchema)
    (b : RecordBatchM)
    (h : (import_record_batch_from_c (some a) (some s)).1 = .ok b) :
    import_record_batch_from_c (some a) (some s) =
      (.ok b, some .released, some s) := by
  unfold import_record_batch_from_c at h ⊢
  cases hs : schemaTryFromFFI s with
  | error e => simp [hs] at h
  | ok sch =>
      cases hf : from_ffi a s with
      | error e => simp [hs, hf] at h
      | ok sa =>
          simp [hs, hf] at h ⊢
          exact h

/-! Claim theorems. -/

/-- C10: `lancedb_set_last_error` with a null pointer clears the calling
thread's last-error slot, so an immediately following
`lancedb_get_last_error` on the same thread returns null; with a non-null
pointer it stores a copy of the string, which `lancedb_get_last_error`
then returns. -/
theorem set_then_get_last_error (slot : Option String) :
    lancedb_get_last_error (lancedb_set_last_error none slot) = none ∧
    ∀ s : String,
      lancedb_get_last_error (lancedb_set_last_error (some s) slot) = some s := by
  exact ⟨rfl, fun _ => rfl⟩

/-- C1 (violated by the code): the allocation-failure branch of
`lancedb_connection_table_names` returns the `-1` sentinel without
writing the thread-local last-error slot, so `lancedb_get_last_error`
can still return null right after the failing call.  Concretely: a valid
handle, an engine listing that returns `["t"]`, and a failing
`libc::malloc` for the outer pointer array. -/
theorem table_names_alloc_failure_skips_error_slot :
    (lancedb_connection_table_names (fun _ _ => .ok ["t"]) false none 0 false
        none).ret = -1 ∧
    lancedb_get_last_error
        (lancedb_connection_table_names (fun _ _ => .ok ["t"]) false none 0
            false none).errSlot = none := by
  exact ⟨rfl, rfl⟩

/-- C3 counterexample: a concrete successful import (the batch of one
`int32` column with two rows) after which the producer's schema slot is
still the live exported schema, not zeroed — refuting the claim that both
original slots are zeroed before the import returns. -/
theorem import_schema_slot_not_zeroed_counterexample :
    (import_record_batch_from_c
        (some (FFI_ArrowArray.live [[CellValue.intv 1, CellValue.intv 2]] 2))
        (some (FFI_ArrowSchema.live ⟨[⟨"id", ArrowType.int32, false⟩]⟩))).1 =
      .ok ⟨⟨[⟨"id", ArrowType.int32, false⟩]⟩,
        [[CellValue.intv 1, CellValue.intv 2]]⟩ ∧
    (import_record_batch_from_c
        (some (FFI_ArrowArray.live [[CellValue.intv 1, CellValue.intv 2]] 2))
        (some (FFI_ArrowSchema.live ⟨[⟨"id", ArrowType.int32, false⟩]⟩))).2.2 =
      some (FFI_ArrowSchema.live ⟨[⟨"id", ArrowType.int32, false⟩]⟩) ∧
    (import_record_batch_from_c
        (some (FFI_ArrowArray.live [[CellValue.intv 1, CellValue.intv 2]] 2))
        (some (FFI_ArrowSchema.live ⟨[⟨"id", ArrowType.int32, false⟩]⟩))).2.2 ≠
      some FFI_ArrowSchema.released := by
  refine ⟨rfl, rfl, ?_⟩
  decide

/-- C3 (amended): for every successful import of an interchange pair, the
producer's array slot is zeroed before the import returns (so the array
release callback cannot fire twice), while the schema slot is read by
reference and left unchanged. -/
theorem import_zeroes_array_slot_only (a : FFI_ArrowArray)
    (s : FFI_ArrowSchema) (b : RecordBatchM)
    (h : (import_record_batch_from_c (some a) (some s)).1 = .ok b) :
    (import_record_batch_from_c (some a) (some s)).2.1 = some .released ∧
    (import_record_batch_from_c (some a) (some s)).2.2 = some s := by
  rw [import_ok_shape a s b h]
  exact ⟨rfl, rfl⟩

/-- C3 witness: the amended theorem applied to the concrete import of the
two-row `int32` batch. -/
theorem import_zeroes_array_slot_only_witness :
    (import_record_batch_from_c
        (some (FFI_ArrowArray.live [[CellValue.intv 1, CellValue.intv 2]] 2))
        (some (FFI_ArrowSchema.live ⟨[⟨"id", ArrowType.int32, false⟩]⟩))).2.1 =
      some .released ∧
    (import_record_batch_from_c
        (some (FFI_ArrowArray.live [[CellValue.intv 1, CellValue.intv 2]] 2))
        (some (FFI_ArrowSchema.live ⟨[⟨"id", ArrowType.int32, false⟩]⟩))).2.2 =
      some (FFI_ArrowSchema.live ⟨[⟨"id", ArrowType.int32, false⟩]⟩) :=
  import_zeroes_array_slot_only _ _
    ⟨⟨[⟨"id", ArrowType.int32, false⟩]⟩, [[CellValue.intv 1, CellValue.intv 2]]⟩
    rfl

/-- C9: `lancedb_table_add` validates `mode` only after importing the
batch — with non-null handle, array and schema and a successfully
importing pair, a `mode` outside `{0, 1}` returns `-1` with the
invalid-mode message, yet the caller's array slot has already been
consumed and zeroed by the import. -/
theorem table_add_validates_mode_after_import
    (addData : RecordBatchM → AddDataMode → Except CError Unit)
    (a : FFI_ArrowArray) (s : FFI_ArrowSchema) (mode : Int)
    (slot : Option String) (b : RecordBatchM)
    (himp : (import_record_batch_from_c (some a) (some s)).1 = .ok b)
    (h0 : mode ≠ 0) (h1 : mode ≠ 1) :
    lancedb_table_add addData false (some a) (some s) mode slot =
      ⟨-1, some .released, some s,
        some "invalid mode: must be 0 (Append) or 1 (Overwrite)"⟩ := by
  unfold lancedb_table_add
  rw [import_ok_shape a s b himp]
  simp [h0, h1, lancedb_set_last_error]

/-- C9 witness: the concrete two-column batch of the repository's
round-trip test imported through `lancedb_table_add` with `mode = 5`. -/
theorem table_add_validates_mode_after_import_witness :
    lancedb_table_add (fun _ _ => .ok ()) false
        (some (FFI_ArrowArray.live [[CellValue.intv 1], [CellValue.strv "a"]] 1))
        (some (FFI_ArrowSchema.live
          ⟨[⟨"id", ArrowType.int32, false⟩, ⟨"text", ArrowType.utf8, true⟩]⟩))
        5 none =
      ⟨-1, some .released,
        some (FFI_ArrowSchema.live
          ⟨[⟨"id", ArrowType.int32, false⟩, ⟨"text", ArrowType.utf8, true⟩]⟩),
        some "invalid mode: must be 0 (Append) or 1 (Overwrite)"⟩ :=
  table_add_validates_mode_after_import (fun _ _ => .ok ()) _ _ 5 none
    ⟨⟨[⟨"id", ArrowType.int32, false⟩, ⟨"text", ArrowType.utf8, true⟩]⟩,
      [[CellValue.intv 1], [CellValue.strv "a"]]⟩
    rfl (by decide) (by decide)

/-- C2: a query handle is a two-state machine — `lancedb_query_nearest_to`
transitions plain to vector exactly once; on a handle already in the
vector state (in particular right after the first call) a second call
fails with an invalid-argument error and leaves the handle's state,
including the first vector, unchanged, so a subsequent execute succeeds
using the first vector. -/
theorem query_nearest_to_one_shot {α : Type} (q : LanceQuery) (v1 v2 : List α)
    (len1 len2 : Int) (slot1 slot2 : Option String)
    (h1 : 0 < len1) (hv1 : v1.length = len1.toNat) (h2 : 0 < len2)
    (runPlain : LanceQuery → Except String (List RecordBatchM))
    (runVector : VectorQuery α → Except String (List RecordBatchM))
    (bs : List RecordBatchM)
    (heng : runVector ⟨q, v1, none⟩ = .ok bs) :
    (lancedb_query_nearest_to (some (QueryHandle.plain q)) (some v1) len1
        slot1 =
      ⟨0, some (QueryHandle.vector ⟨q, v1, none⟩), slot1⟩) ∧
    (∀ vq : VectorQuery α,
      lancedb_query_nearest_to (some (QueryHandle.vector vq)) (some v2) len2
          slot2 =
        ⟨-1, some (QueryHandle.vector vq),
          some (CError.render
            (.invalidArgument "nearest_to can only be called once on a query"))⟩) ∧
    ((lancedb_query_nearest_to
        (lancedb_query_nearest_to (some (QueryHandle.plain q)) (some v1) len1
            slot1).handle
        (some v2) len2 slot2).handle.map
          (QueryHandle.execute runPlain runVector) = some (.ok bs)) := by
  have hn1 : ¬ len1 ≤ 0 := not_le.mpr h1
  have hn2 : ¬ len2 ≤ 0 := not_le.mpr h2
  have htake : v1.take len1.toNat = v1 := by
    rw [← hv1]; exact List.take_length v1
  have hfirst :
      lancedb_query_nearest_to (some (QueryHandle.plain q)) (some v1) len1
          slot1 =
        ⟨0, some (QueryHandle.vector ⟨q, v1, none⟩), slot1⟩ := by
    simp [lancedb_query_nearest_to, hn1, htake, QueryHandle.nearest_to]
  have hsecond : ∀ vq : VectorQuery α,
      lancedb_query_nearest_to (some (QueryHandle.vector vq)) (some v2) len2
          slot2 =
        ⟨-1, some (QueryHandle.vector vq),
          some (CError.render
            (.invalidArgument "nearest_to can only be called once on a query"))⟩ := by
    intro vq
    simp [lancedb_query_nearest_to, hn2, QueryHandle.nearest_to,
      lancedb_set_last_error]
  refine ⟨hfirst, hsecond, ?_⟩
  rw [hfirst]
  rw [hsecond ⟨q, v1, none⟩]
  simpa [QueryHandle.execute] using heng

/-- C2 witness: a plain query over `Int` components, first vector
`[1, 2, 3]`, second vector `[4, 5, 6]`, with an engine that succeeds on
the first-vector query. -/
theorem query_nearest_to_one_shot_witness :
    (lancedb_query_nearest_to
        (some (QueryHandle.plain (⟨none, none, none, none⟩ : LanceQuery)))
        (some [(1 : Int), 2, 3]) 3 none =
      ⟨0, some (QueryHandle.vector ⟨⟨none, none, none, none⟩, [1, 2, 3], none⟩),
        none⟩) ∧
    (∀ vq : VectorQuery Int,
      lancedb_query_nearest_to (some (QueryHandle.vector vq))
          (some [(4 : Int), 5, 6]) 3 none =
        ⟨-1, some (QueryHandle.vector vq),
          some (CError.render
            (.invalidArgument "nearest_to can only be called once on a query"))⟩) ∧
    ((lancedb_query_nearest_to
        (lancedb_query_nearest_to
            (some (QueryHandle.plain (⟨none, none, none, none⟩ : LanceQuery)))
            (some [(1 : Int), 2, 3]) 3 none).handle
        (some [(4 : Int), 5, 6]) 3 none).handle.map
          (QueryHandle.execute (fun _ => .ok []) (fun _ => .ok [])) =
      some (.ok [])) :=
  query_nearest_to_one_shot (⟨none, none, none, none⟩ : LanceQuery)
    [(1 : Int), 2, 3] [(4 : Int), 5, 6] 3 3 none none
    (by decide) (by decide) (by decide)
    (fun _ => .ok []) (fun _ => .ok []) [] rfl

/-- C7: `lancedb_query_distance_type` with `m` decoding to a metric
(`m ∈ {0, 1, 2}`) succeeds and replaces the metric when the handle is in
the vector state, fails with an invalid-argument error in the plain
state, and fails with an invalid-argument error for every `m` outside
`{0, 1, 2}` regardless of state. -/
theorem query_distance_type_state_machine {α : Type} (m : Int)
    (slot : Option String) :
    (∀ (dt : DistanceType) (vq : VectorQuery α),
      decodeDistanceType m = some dt →
        lancedb_query_distance_type (some (QueryHandle.vector vq)) m slot =
          ⟨0, some (QueryHandle.vector { vq with metric := some dt }), slot⟩) ∧
    (∀ (dt : DistanceType) (q : LanceQuery),
      decodeDistanceType m = some dt →
        lancedb_query_distance_type
            (some (QueryHandle.plain q : QueryHandle α)) m slot =
          ⟨-1, some (QueryHandle.plain q),
            some (CError.render
              (.invalidArgument
                "distance_type can only be set on vector queries"))⟩) ∧
    (∀ h : QueryHandle α,
      decodeDistanceType m = none →
        lancedb_query_distance_type (some h) m slot =
          ⟨-1, some h,
            some "invalid distance type: must be 0 (L2), 1 (Cosine), or 2 (Dot)"⟩) ∧
    (decodeDistanceType m = none ↔ m ≠ 0 ∧ m ≠ 1 ∧ m ≠ 2) := by
  refine ⟨?_, ?_, ?_, ?_⟩
  · intro dt vq hdt
    simp [lancedb_query_distance_type, hdt, QueryHandle.distance_type]
  · intro dt q hdt
    simp [lancedb_query_distance_type, hdt, QueryHandle.distance_type,
      lancedb_set_last_error]
  · intro h hdt
    simp [lancedb_query_distance_type, hdt, lancedb_set_last_error]
  · unfold decodeDistanceType
    by_cases h0 : m = 0
    · simp [h0]
    · by_cases h1 : m = 1
      · simp [h0, h1]
      · by_cases h2 : m = 2
        · simp [h0, h1, h2]
        · simp [h0, h1, h2]

/-- C7 witness: metric 1 (cosine) replacing the metric on a vector-state
handle, metric 1 rejected on a plain-state handle, and metric 7 rejected
on a vector-state handle. -/
theorem query_distance_type_state_machine_witness :
    (lancedb_query_distance_type
        (some (QueryHandle.vector
          (⟨⟨none, none, none, none⟩, [(1 : Int)], none⟩ : VectorQuery Int)))
        1 none =
      ⟨0, some (QueryHandle.vector
          ⟨⟨none, none, none, none⟩, [(1 : Int)], some DistanceType.cosine⟩),
        none⟩) ∧
    (lancedb_query_distance_type
        (some (QueryHandle.plain ⟨none, none, none, none⟩ : QueryHandle Int))
        1 none =
      ⟨-1, some (QueryHandle.plain ⟨none, none, none, none⟩),
        some (CError.render
          (.invalidArgument "distance_type can only be set on vector queries"))⟩) ∧
    (lancedb_query_distance_type
        (some (QueryHandle.vector
          (⟨⟨none, none, none, none⟩, [(1 : Int)], none⟩ : VectorQuery Int)))
        7 none =
      ⟨-1, some (QueryHandle.vector
          ⟨⟨none, none, none, none⟩, [(1 : Int)], none⟩),
        some "invalid distance type: must be 0 (L2), 1 (Cosine), or 2 (Dot)"⟩) :=
  ⟨(query_distance_type_state_machine 1 none).1 .cosine
      ⟨⟨none, none, none, none⟩, [(1 : Int)], none⟩ rfl,
    (query_distance_type_state_machine 1 none).2.1 .cosine
      ⟨none, none, none, none⟩ rfl,
    (query_distance_type_state_machine 7 none).2.2.1
      (QueryHandle.vector ⟨⟨none, none, none, none⟩, [(1 : Int)], none⟩) rfl⟩

/-- C8: with a valid handle and non-null UTF-8 arguments (and a valid
metric enum value), `lancedb_table_create_index` accepts an `index_type`
whose ASCII uppercasing equals `"IVF_PQ"` or `"AUTO"` — invoking the
engine's index build, and returning 0 whenever the build succeeds — and
for every other `index_type` string returns `-1` with an
invalid-argument error without invoking the engine's index build. -/
theorem create_index_type_validation
    (engineBuild : String → EngineIndex → Bool → Except CError Unit)
    (col ity : String) (metric np ns : Int) (replace : Bool)
    (slot : Option String) (dt : DistanceType)
    (hm : decodeDistanceType metric = some dt) :
    ((rustToUppercase ity = "IVF_PQ" ∨ rustToUppercase ity = "AUTO") →
      (lancedb_table_create_index engineBuild false (some col) (some ity)
          metric np ns replace slot).engineInvoked = true ∧
      ((∀ i r, engineBuild col i r = .ok ()) →
        lancedb_table_create_index engineBuild false (some col) (some ity)
            metric np ns replace slot = ⟨0, slot, true⟩)) ∧
    (rustToUppercase ity ≠ "IVF_PQ" → rustToUppercase ity ≠ "AUTO" →
      lancedb_table_create_index engineBuild false (some col) (some ity)
          metric np ns replace slot =
        ⟨-1,
          some (CError.render
            (.invalidArgument ("Unsupported index type: " ++ ity))),
          false⟩) := by
  constructor
  · rintro (h | h)
    · constructor
      · simp only [lancedb_table_create_index, hm, TableHandle.create_index,
          if_pos h]
        split <;> simp_all
      · intro hok
        simp [lancedb_table_create_index, hm, TableHandle.create_index, h, hok]
    · have hne : rustToUppercase ity ≠ "IVF_PQ" := by rw [h]; decide
      constructor
      · simp only [lancedb_table_create_index, hm, TableHandle.create_index,
          if_neg hne, if_pos h]
        split <;> simp_all
      · intro hok
        simp [lancedb_table_create_index, hm, TableHandle.create_index, hne, h,
          hok]
  · intro h1 h2
    simp [lancedb_table_create_index, hm, TableHandle.create_index, h1, h2,
      lancedb_set_last_error]

/-- C8 witness: `"ivf_pq"` (lower case) is accepted and builds, `"auto"`
is accepted and builds, and `"FLAT"` is rejected without an engine
call. -/
theorem create_index_type_validation_witness :
    (lancedb_table_create_index (fun _ _ _ => .ok ()) false (some "v")
        (some "ivf_pq") 0 0 0 true none = ⟨0, none, true⟩) ∧
    (lancedb_table_create_index (fun _ _ _ => .ok ()) false (some "v")
        (some "auto") 0 0 0 true none = ⟨0, none, true⟩) ∧
    (lancedb_table_create_index (fun _ _ _ => .ok ()) false (some "v")
        (some "FLAT") 0 0 0 true none =
      ⟨-1,
        some (CError.render
          (.invalidArgument ("Unsupported index type: " ++ "FLAT"))),
        false⟩) :=
  ⟨((create_index_type_validation (fun _ _ _ => .ok ()) "v" "ivf_pq" 0 0 0 true
        none .l2 rfl).1 (Or.inl (by decide))).2 (fun _ _ => rfl),
    ((create_index_type_validation (fun _ _ _ => .ok ()) "v" "auto" 0 0 0 true
        none .l2 rfl).1 (Or.inr (by decide))).2 (fun _ _ => rfl),
    (create_index_type_validation (fun _ _ _ => .ok ()) "v" "FLAT" 0 0 0 true
        none .l2 rfl).2 (by decide) (by decide)⟩

/-- C4: for every batch the engine accepts (well-formed, with a schema the
interchange conversion supports), exporting it into fresh slots and
importing those slots yields the batch back — same schema (hence row and
column counts) and cell values; and for every schema the conversion
supports, importing its export yields it back. -/
theorem export_import_roundtrip
    (tryFromSchema : ArrowSchemaM → Except String Unit)
    (B : RecordBatchM) (S : ArrowSchemaM)
    (a0 : FFI_ArrowArray) (s0 s1 : FFI_ArrowSchema)
    (hwf : B.wellFormed)
    (hconvB : tryFromSchema B.schema = .ok ())
    (hconvS : tryFromSchema S = .ok ()) :
    ((export_record_batch_to_c tryFromSchema B (some a0) (some s0)).1 =
        .ok () ∧
      (import_record_batch_from_c
          (export_record_batch_to_c tryFromSchema B (some a0) (some s0)).2.1
          (export_record_batch_to_c tryFromSchema B (some a0)
              (some s0)).2.2).1 = .ok B) ∧
    ((export_schema_to_c tryFromSchema S (some s1)).1 = .ok () ∧
      import_schema_from_c (export_schema_to_c tryFromSchema S (some s1)).2 =
        .ok S) := by
  rcases B with ⟨⟨flds⟩, cols⟩
  obtain ⟨hlen, hcols⟩ := hwf
  have hff : from_ffi
      (.live cols (RecordBatchM.numRows ⟨⟨flds⟩, cols⟩)) (.live ⟨flds⟩) =
      .ok ⟨flds, cols⟩ := by
    have hcond : cols.length = (⟨flds⟩ : ArrowSchemaM).fields.length ∧
        ∀ c ∈ cols, c.length = RecordBatchM.numRows ⟨⟨flds⟩, cols⟩ :=
      ⟨hlen, hcols⟩
    simp only [from_ffi]
    rw [if_pos hcond]
  refine ⟨⟨?_, ?_⟩, ?_, ?_⟩
  · simp [export_record_batch_to_c, structArrayFromBatch, hconvB]
  · simp [export_record_batch_to_c, structArrayFromBatch, hconvB,
      import_record_batch_from_c, schemaTryFromFFI, hff, recordBatchFromStruct]
  · simp [export_schema_to_c, hconvS]
  · simp [export_schema_to_c, hconvS, import_schema_from_c, schemaTryFromFFI]

/-- C4 witness: the three-row `(id, name)` batch of the repository's
round-trip test and the `(id, value)` schema of its schema round-trip
test, with the conversion succeeding. -/
theorem export_import_roundtrip_witness :
    ((export_record_batch_to_c (fun _ => .ok ())
        ⟨⟨[⟨"id", ArrowType.int32, false⟩, ⟨"name", ArrowType.utf8, false⟩]⟩,
          [[CellValue.intv 1, CellValue.intv 2, CellValue.intv 3],
            [CellValue.strv "Alice", CellValue.strv "Bob",
              CellValue.strv "Charlie"]]⟩
        (some .released) (some .released)).1 = .ok () ∧
      (import_record_batch_from_c
          (export_record_batch_to_c (fun _ => .ok ())
            ⟨⟨[⟨"id", ArrowType.int32, false⟩, ⟨"name", ArrowType.utf8, false⟩]⟩,
              [[CellValue.intv 1, CellValue.intv 2, CellValue.intv 3],
                [CellValue.strv "Alice", CellValue.strv "Bob",
                  CellValue.strv "Charlie"]]⟩
            (some .released) (some .released)).2.1
          (export_record_batch_to_c (fun _ => .ok ())
            ⟨⟨[⟨"id", ArrowType.int32, false⟩, ⟨"name", ArrowType.utf8, false⟩]⟩,
              [[CellValue.intv 1, CellValue.intv 2, CellValue.intv 3],
                [CellValue.strv "Alice", CellValue.strv "Bob",
                  CellValue.strv "Charlie"]]⟩
            (some .released) (some .released)).2.2).1 =
        .ok ⟨⟨[⟨"id", ArrowType.int32, false⟩, ⟨"name", ArrowType.utf8, false⟩]⟩,
          [[CellValue.intv 1, CellValue.intv 2, CellValue.intv 3],
            [CellValue.strv "Alice", CellValue.strv "Bob",
              CellValue.strv "Charlie"]]⟩) ∧
    ((export_schema_to_c (fun _ => .ok ())
        ⟨[⟨"id", ArrowType.int32, false⟩, ⟨"value", ArrowType.float32, true⟩]⟩
        (some .released)).1 = .ok () ∧
      import_schema_from_c
          (export_schema_to_c (fun _ => .ok ())
            ⟨[⟨"id", ArrowType.int32, false⟩,
              ⟨"value", ArrowType.float32, true⟩]⟩
            (some .released)).2 =
        .ok ⟨[⟨"id", ArrowType.int32, false⟩,
          ⟨"value", ArrowType.float32, true⟩]⟩) :=
  export_import_roundtrip (fun _ => .ok ())
    ⟨⟨[⟨"id", ArrowType.int32, false⟩, ⟨"name", ArrowType.utf8, false⟩]⟩,
      [[CellValue.intv 1, CellValue.intv 2, CellValue.intv 3],
        [CellValue.strv "Alice", CellValue.strv "Bob",
          CellValue.strv "Charlie"]]⟩
    ⟨[⟨"id", ArrowType.int32, false⟩, ⟨"value", ArrowType.float32, true⟩]⟩
    .released .released .released (by decide) rfl rfl

/-- Success test on an `Except`, used to state which loop iterations
exported cleanly. -/
def isOkE {ε σ : Type} : Except ε σ → Bool
  | .ok _ => true
  | .error _ => false

/-- When every batch's schema converts, the export loop writes one
interchange pair per batch, in order. -/
theorem exportAllLoop_ok (f : ArrowSchemaM → Except String Unit)
    (bs : List RecordBatchM) (h : ∀ b ∈ bs, f b.schema = .ok ()) :
    exportAllLoop f bs = .ok (bs.map exportedPair) := by
  induction bs with
  | nil => rfl
  | cons b rest ih =>
      have hb : f b.schema = .ok () := h b (by simp)
      have hrest := ih (fun x hx => h x (by simp [hx]))
      simp [exportAllLoop, hb, hrest]

/-- Characterization of a failing export loop: failure at index `k` means
the first `k` batches exported cleanly and batch `k`'s conversion failed
with the reported message. -/
theorem exportAllLoop_error (f : ArrowSchemaM → Except String Unit)
    (bs : List RecordBatchM) (m : String) (k : Nat)
    (h : exportAllLoop f bs = .error (m, k)) :
    ((bs.take k).all fun b => isOkE (f b.schema)) = true ∧
    ∃ hk : k < bs.length, f (bs.get ⟨k, hk⟩).schema = .error m := by
  induction bs generalizing k with
  | nil => simp [exportAllLoop] at h
  | cons b rest ih =>
      cases hb : f b.schema with
      | error mm =>
          simp [exportAllLoop, hb] at h
          obtain ⟨hm, hk⟩ := h
          subst hm
          refine ⟨by simp [← hk], ?_⟩
          refine ⟨by simp [← hk], ?_⟩
          simp [← hk, hb]
      | ok u =>
          cases u
          cases hr : exportAllLoop f rest with
          | ok pairs => simp [exportAllLoop, hb, hr] at h
          | error pr =>
              rcases pr with ⟨mm, kk⟩
              simp [exportAllLoop, hb, hr] at h
              obtain ⟨hm, hk⟩ := h
              subst hm
              obtain ⟨ih1, hklt, ihe⟩ := ih kk hr
              refine ⟨?_, ?_⟩
              · rw [← hk]
                simp only [List.take_succ_cons, List.all_cons, hb, isOkE,
                  Bool.true_and]
                simpa [isOkE] using ih1
              · refine ⟨by simp [← hk]; omega, ?_⟩
                have : (b :: rest).get ⟨kk + 1, by simp; omega⟩ =
                    rest.get ⟨kk, hklt⟩ := rfl
                simp only [← hk]
                simpa [this] using ihe

/-- C5: a materialized `lancedb_query_execute` with non-null handle and
output pointers whose underlying query yields `N` batches (and whose
allocations and per-batch conversions succeed) writes base pointers to
regions of exactly `N` array structures and `N` schema structures and
sets the count to `N`, returning 0; with `N = 0` it writes null to both
output pointers, sets the count to 0, and returns 0. -/
theorem query_execute_batch_counts {α : Type}
    (tryFromSchema : ArrowSchemaM → Except String Unit)
    (runPlain : LanceQuery → Except String (List RecordBatchM))
    (runVector : VectorQuery α → Except String (List RecordBatchM))
    (h : QueryHandle α) (slot : Option String)
    (batches : List RecordBatchM)
    (hrun : h.execute runPlain runVector = .ok batches)
    (hconv : ∀ b ∈ batches, tryFromSchema b.schema = .ok ()) :
    (batches = [] →
      lancedb_query_execute tryFromSchema runPlain runVector (some h)
          false false false true true slot =
        ⟨0, .nullWritten, .nullWritten, some 0, 0, false, slot⟩) ∧
    (batches ≠ [] →
      lancedb_query_execute tryFromSchema runPlain runVector (some h)
          false false false true true slot =
        ⟨0, .region (batches.map fun b => (exportedPair b).1),
          .region (batches.map fun b => (exportedPair b).2),
          some (batches.length : Int), 0, false, slot⟩ ∧
      (batches.map fun b => (exportedPair b).1).length = batches.length ∧
      (batches.map fun b => (exportedPair b).2).length = batches.length) := by
  constructor
  · intro hnil
    subst hnil
    simp [lancedb_query_execute, hrun]
  · intro hne
    have hlen : ¬ batches.length = 0 := by simpa [List.length_eq_zero] using hne
    have hloop := exportAllLoop_ok tryFromSchema batches hconv
    refine ⟨?_, by simp, by simp⟩
    simp [lancedb_query_execute, hrun, hlen, exportBatchList, hloop,
      List.map_map, Function.comp]

/-- C5 witness: a query yielding two one-column batches, and a query
yielding no batches. -/
theorem query_execute_batch_counts_witness :
    (lancedb_query_execute (fun _ => .ok ())
        (fun _ => .ok [⟨⟨[⟨"id", ArrowType.int32, false⟩]⟩, [[CellValue.intv 1]]⟩,
          ⟨⟨[⟨"id", ArrowType.int32, false⟩]⟩, [[CellValue.intv 2]]⟩])
        (fun _ => .ok [])
        (some (QueryHandle.plain (⟨none, none, none, none⟩ : LanceQuery)
          : QueryHandle Int))
        false false false true true none =
      ⟨0,
        .region [(exportedPair
            ⟨⟨[⟨"id", ArrowType.int32, false⟩]⟩, [[CellValue.intv 1]]⟩).1,
          (exportedPair
            ⟨⟨[⟨"id", ArrowType.int32, false⟩]⟩, [[CellValue.intv 2]]⟩).1],
        .region [(exportedPair
            ⟨⟨[⟨"id", ArrowType.int32, false⟩]⟩, [[CellValue.intv 1]]⟩).2,
          (exportedPair
            ⟨⟨[⟨"id", ArrowType.int32, false⟩]⟩, [[CellValue.intv 2]]⟩).2],
        some 2, 0, false, none⟩) ∧
    (lancedb_query_execute (fun _ => .ok ()) (fun _ => .ok [])
        (fun _ => .ok [])
        (some (QueryHandle.plain (⟨none, none, none, none⟩ : LanceQuery)
          : QueryHandle Int))
        false false false true true none =
      ⟨0, .nullWritten, .nullWritten, some 0, 0, false, none⟩) :=
  ⟨((query_execute_batch_counts (fun _ => .ok ())
      (fun _ => .ok [⟨⟨[⟨"id", ArrowType.int32, false⟩]⟩, [[CellValue.intv 1]]⟩,
        ⟨⟨[⟨"id", ArrowType.int32, false⟩]⟩, [[CellValue.intv 2]]⟩])
      (fun _ => .ok [])
      (QueryHandle.plain ⟨none, none, none, none⟩) none
      [⟨⟨[⟨"id", ArrowType.int32, false⟩]⟩, [[CellValue.intv 1]]⟩,
        ⟨⟨[⟨"id", ArrowType.int32, false⟩]⟩, [[CellValue.intv 2]]⟩]
      rfl (fun _ _ => rfl)).2 (by decide)).1,
    (query_execute_batch_counts (fun _ => .ok ()) (fun _ => .ok [])
      (fun _ => .ok [])
      (QueryHandle.plain ⟨none, none, none, none⟩) none []
      rfl (fun _ hb => absurd hb (List.not_mem_nil _))).1 rfl⟩

/-- C6: in the batch-list export of `lancedb_query_execute` and
`lancedb_table_to_arrow`, if exporting the batch at index `k` fails after
batches `0..k-1` were written, then exactly those `k` already-written
interchange pairs are released via their callbacks, both raw backing
regions are freed, the error is recorded in the thread-local slot, and
the call returns `-1` with all three output pointers untouched, so the
foreign caller observes no produced pairs. -/
theorem batch_list_export_rollback {α : Type}
    (tryFromSchema : ArrowSchemaM → Except String Unit)
    (runPlain : LanceQuery → Except String (List RecordBatchM))
    (runVector : VectorQuery α → Except String (List RecordBatchM))
    (hq : QueryHandle α)
    (tableRead : Option Int → Except String (List RecordBatchM))
    (limit : Int) (slot : Option String)
    (batches : List RecordBatchM) (m : String) (k : Nat)
    (hrun : hq.execute runPlain runVector = .ok batches)
    (hread : tableRead (if limit < 0 then none else some limit) = .ok batches)
    (hloop : exportAllLoop tryFromSchema batches = .error (m, k)) :
    (((batches.take k).all fun b => isOkE (tryFromSchema b.schema)) = true ∧
      ∃ hk : k < batches.length,
        tryFromSchema (batches.get ⟨k, hk⟩).schema = .error m) ∧
    lancedb_query_execute tryFromSchema runPlain runVector (some hq)
        false false false true true slot =
      ⟨-1, .untouched, .untouched, none, k, true,
        some (CError.render (.arrow ("Failed to export schema: " ++ m)))⟩ ∧
    lancedb_table_to_arrow tryFromSchema tableRead false limit
        false false false true true slot =
      ⟨-1, .untouched, .untouched, none, k, true,
        some (CError.render (.arrow ("Failed to export schema: " ++ m)))⟩ := by
  have hchar := exportAllLoop_error tryFromSchema batches m k hloop
  have hne : ¬ batches.length = 0 := by
    obtain ⟨_, hk, _⟩ := hchar
    omega
  refine ⟨hchar, ?_, ?_⟩
  · simp [lancedb_query_execute, hrun, hne, exportBatchList, hloop,
      lancedb_set_last_error]
  · simp [lancedb_table_to_arrow, hread, hne, exportBatchList, hloop,
      lancedb_set_last_error]

/-- C6 witness: two batches where the first exports cleanly and the
second's schema conversion fails, driven through both entry points with
all pointers valid and both allocations succeeding. -/
theorem batch_list_export_rollback_witness :
    lancedb_query_execute
        (fun sch => if sch.fields = [] then .error "boom" else .ok ())
        (fun _ => .ok [⟨⟨[⟨"id", ArrowType.int32, false⟩]⟩, [[CellValue.intv 1]]⟩,
          ⟨⟨[]⟩, []⟩])
        (fun _ => .ok [])
        (some (QueryHandle.plain (⟨none, none, none, none⟩ : LanceQuery)
          : QueryHandle Int))
        false false false true true none =
      ⟨-1, .untouched, .untouched, none, 1, true,
        some (CError.render (.arrow ("Failed to export schema: " ++ "boom")))⟩ ∧
    lancedb_table_to_arrow
        (fun sch => if sch.fields = [] then .error "boom" else .ok ())
        (fun _ => .ok [⟨⟨[⟨"id", ArrowType.int32, false⟩]⟩, [[CellValue.intv 1]]⟩,
          ⟨⟨[]⟩, []⟩])
        false (-1) false false false true true none =
      ⟨-1, .untouched, .untouched, none, 1, true,
        some (CError.render (.arrow ("Failed to export schema: " ++ "boom")))⟩ :=
  ⟨(batch_list_export_rollback
      (fun sch => if sch.fields = [] then .error "boom" else .ok ())
      (fun _ => .ok [⟨⟨[⟨"id", ArrowType.int32, false⟩]⟩, [[CellValue.intv 1]]⟩,
        ⟨⟨[]⟩, []⟩])
      (fun _ => .ok [])
      (QueryHandle.plain ⟨none, none, none, none⟩)
      (fun _ => .ok [⟨⟨[⟨"id", ArrowType.int32, false⟩]⟩, [[CellValue.intv 1]]⟩,
        ⟨⟨[]⟩, []⟩])
      (-1) none
      [⟨⟨[⟨"id", ArrowType.int32, false⟩]⟩, [[CellValue.intv 1]]⟩, ⟨⟨[]⟩, []⟩]
      "boom" 1 rfl rfl rfl).2.1,
    (batch_list_export_rollback
      (fun sch => if sch.fields = [] then .error "boom" else .ok ())
      (fun _ => .ok [⟨⟨[⟨"id", ArrowType.int32, false⟩]⟩, [[CellValue.intv 1]]⟩,
        ⟨⟨[]⟩, []⟩])
      (fun _ => .ok [])
      (QueryHandle.plain (⟨none, none, none, none⟩ : LanceQuery)
        : QueryHandle Int)
      (fun _ => .ok [⟨⟨[⟨"id", ArrowType.int32, false⟩]⟩, [[CellValue.intv 1]]⟩,
        ⟨⟨[]⟩, []⟩])
      (-1) none
      [⟨⟨[⟨"id", ArrowType.int32, false⟩]⟩, [[CellValue.intv 1]]⟩, ⟨⟨[]⟩, []⟩]
      "boom" 1 rfl rfl rfl).2.2⟩

/-- C10 witness: starting from a non-empty slot, clearing with null makes
`lancedb_get_last_error` return null, and storing `"boom"` makes it
return `"boom"`. -/
theorem set_then_get_last_error_witness :
    lancedb_get_last_error (lancedb_set_last_error none (some "old")) = none ∧
    lancedb_get_last_error (lancedb_set_last_error (some "boom") (some "old")) =
      some "boom" :=
  ⟨(set_then_get_last_error (some "old")).1,
    (set_then_get_last_error (some "old")).2 "boom"⟩

end LanceBridge
